import Mathlib

/-!
Shallow embedding of the `json-s_shop` repository: a small e-commerce
backend (`backend/main.py`, `backend/models.py`) and a chat-bot front door
(`bot/bot.py`).

Modelling conventions:
* SQLAlchemy tables become Lean lists of structures; a query
  `db.query(T).filter(p).first()` becomes `List.find?`, `.all()` becomes
  `List.filter`, in table (insertion) order.
* `datetime` values are modelled as natural numbers (seconds); only their
  ordering matters to the code under verification.
* SQL `Float` prices are modelled as exact rationals `ℚ`; the claims under
  verification concern which products are summed, not IEEE rounding.
* JSON payload values are modelled by `JsonVal`, covering null, booleans,
  integers, strings and arrays — the payload universe the claims exercise.
  JSON floats and objects are outside the modelled universe.
* bcrypt (`_verify_password`) is an external library; it is modelled as an
  explicit `verify : String → String → Bool` parameter of `login`.
* Python truthiness (`or` defaults, `if not x`) is modelled explicitly by
  `pyTruthy`.
-/

namespace Shop

/-- JSON values as decoded by FastAPI / `json.loads`, restricted to the
payload universe relevant to the repository: null, booleans, integers,
strings and arrays. -/
inductive JsonVal where
  | jnull
  | jbool (b : Bool)
  | jint (n : Int)
  | jstr (s : String)
  | jlist (elems : List JsonVal)

/-- Python truthiness of a JSON-decoded value: `None`, `False`, `0`, `""`
and `[]` are falsy, everything else truthy. -/
def pyTruthy : JsonVal → Bool
  | .jnull => false
  | .jbool b => b
  | .jint n => n != 0
  | .jstr s => s != ""
  | .jlist xs => !xs.isEmpty

/-- Python `isinstance(x, int)`: true for ints and booleans (Python `bool`
is a subclass of `int`). -/
def isPyInt : JsonVal → Bool
  | .jint _ => true
  | .jbool _ => true
  | _ => false

/-- The integer value of an int-like JSON element (`True` behaves as `1`
and `False` as `0` wherever Python uses it as an integer). -/
def pyToInt : JsonVal → Option Int
  | .jint n => some n
  | .jbool b => some (if b then 1 else 0)
  | _ => none

/-- Python `str(x)` for the item elements that pass the integer check
(ints and booleans). Other constructors are never reached on that path. -/
def pyStr : JsonVal → String
  | .jint n => toString n
  | .jbool b => if b then "True" else "False"
  | .jnull => "None"
  | .jstr s => s
  | .jlist _ => ""

/-- Characters stripped by Python `str.strip()` with no argument. -/
def isPySpace (c : Char) : Bool :=
  c == ' ' || c == '\t' || c == '\n' || c == '\r' || c == '\x0b' || c == '\x0c'

/-- Python `s.strip()`: remove leading and trailing whitespace. -/
def pyStrip (s : String) : String :=
  String.mk (((s.data.dropWhile isPySpace).reverse.dropWhile isPySpace).reverse)

/-- Python `s.isdigit()` (restricted to ASCII digits): non-empty and all
digits. -/
def pyIsDigit (s : String) : Bool :=
  !s.data.isEmpty && s.data.all Char.isDigit

/-- Numeric value of a list of ASCII digit characters. -/
def natOfDigits (ds : List Char) : Nat :=
  ds.foldl (fun acc c => 10 * acc + (c.toNat - 48)) 0

/-- Python `int(s)` on a string: strip whitespace, optional sign, digits;
raises (→ `none`) otherwise. -/
def pyIntOfString (s : String) : Option Int :=
  match (pyStrip s).data with
  | '-' :: ds =>
      if !ds.isEmpty && ds.all Char.isDigit then some (-(natOfDigits ds : Int)) else none
  | '+' :: ds =>
      if !ds.isEmpty && ds.all Char.isDigit then some (natOfDigits ds : Int) else none
  | ds =>
      if !ds.isEmpty && ds.all Char.isDigit then some (natOfDigits ds : Int) else none

/-- Python `int(x)` on a JSON-decoded element: ints and bools convert,
numeric strings parse, everything else raises (→ `none`). -/
def pyIntOf : JsonVal → Option Int
  | .jint n => some n
  | .jbool b => some (if b then 1 else 0)
  | .jstr s => pyIntOfString s
  | _ => none

/-! ## Data model (`backend/models.py`) -/

/-- `products` table row. `price` is a SQL `Float`, modelled as `ℚ`. -/
structure Product where
  id : Int
  name : String
  description : String
  price : ℚ
  image : String
  is_active : Bool
deriving DecidableEq

/-- `users` table row. -/
structure User where
  id : Int
  telegram_id : Option Int
  username : Option String
  password_hash : Option String
  is_admin : Bool
  created_at : Nat
deriving DecidableEq

/-- `sessions` table row (the SQLAlchemy `Session` model). -/
structure Sess where
  user_id : Int
  token : String
  expires_at : Nat
deriving DecidableEq

/-- `orders` table row. `items` is the serialized product-id list exactly
as the code stores it (comma-join on the HTTP path, `json.dumps` on the
bot path). -/
structure Order where
  id : Int
  user_id : Option Int
  items : String
  total : ℚ
  status : String
  created_at : Nat
  full_name : Option String
  address : Option String
  phone : Option String
deriving DecidableEq

/-- The persistent database state: one list per table, in insertion
order. -/
structure DB where
  products : List Product
  users : List User
  sessions : List Sess
  orders : List Order
deriving DecidableEq

/-- SQLite assigns a fresh integer primary key: one more than the largest
id in use (1 on an empty table). -/
def nextOrderId (db : DB) : Int :=
  (db.orders.map (·.id)).foldr max 0 + 1

/-! ## Session resolution and admin gate (`backend/main.py`) -/

/-- `_user_from_request`: read the session cookie; an absent or empty
token resolves to no user; otherwise look up a session with that exact
token whose `expires_at` is strictly in the future, then the user it
points to. -/
def user_from_request (db : DB) (cookie : Option String) (now : Nat) : Option User :=
  match cookie with
  | none => none
  | some token =>
    if token == "" then none
    else
      match db.sessions.find? (fun s => s.token == token && decide (now < s.expires_at)) with
      | none => none
      | some s => db.users.find? (fun u => u.id == s.user_id)

/-- Python `s.startswith(pre)`. -/
def pyStartsWith (s pre : String) : Bool :=
  pre.data.isPrefixOf s.data

/-- `admin_check` middleware: on a path under `/api/admin`, resolve the
caller; if there is no user or the user is not an admin, short-circuit
with the fixed 403 response (`some (403, "Access denied")`); otherwise
(`none`) the request proceeds to the underlying handler. -/
def admin_check (db : DB) (path : String) (cookie : Option String) (now : Nat) :
    Option (Nat × String) :=
  if pyStartsWith path "/api/admin" then
    match user_from_request db cookie now with
    | none => some (403, "Access denied")
    | some u => if u.is_admin then none else some (403, "Access denied")
  else none

/-! ## Login (`backend/main.py`, `/api/auth/login`) -/

/-- Result of `/api/auth/login`: an `HTTPException` (status, detail) or a
success response carrying `is_admin` and the freshly set session cookie
token. -/
inductive LoginResult where
  | error (status : Nat) (detail : String)
  | ok (is_admin : Bool) (cookieToken : String)
deriving DecidableEq

/-- Whether a login outcome is the error (HTTPException) case. -/
def LoginResult.isError : LoginResult → Bool
  | .error _ _ => true
  | .ok _ _ => false

/-- `login`: trim the username, default missing fields to `""`; reject
empty username or password, unknown username, absent/empty password hash,
or a hash-check failure — all with 401 "Invalid credentials". On success
`_issue_session` persists a fresh 7-day session and the cookie is set.
`verify` stands for bcrypt's `_verify_password`. -/
def login (verify : String → String → Bool) (db : DB)
    (usernameOpt passwordOpt : Option String) (freshToken : String) (now : Nat) :
    DB × LoginResult :=
  let username := pyStrip (usernameOpt.getD "")
  let password := passwordOpt.getD ""
  if username == "" || password == "" then
    (db, .error 401 "Invalid credentials")
  else
    match db.users.find? (fun u => u.username == some username) with
    | none => (db, .error 401 "Invalid credentials")
    | some user =>
      let h := user.password_hash.getD ""
      if h == "" then (db, .error 401 "Invalid credentials")
      else if verify password h then
        ({db with sessions := db.sessions ++ [⟨user.id, freshToken, now + 7 * 24 * 3600⟩]},
         .ok user.is_admin freshToken)
      else (db, .error 401 "Invalid credentials")

/-! ## Order creation (`backend/main.py`, `POST /api/orders`) -/

/-- The checkout payload `{ items, full_name, address, phone, user_id? }`.
The customer fields are strings (or absent) in every request the endpoint
handles without a server error, so they are modelled as optional
strings. -/
structure OrderPayload where
  items : Option JsonVal
  full_name : Option String
  address : Option String
  phone : Option String
  user_id : Option Int

/-- `payload.get("items") or []`: a missing or falsy `items` value is
replaced by the empty list. -/
def normItems (p : OrderPayload) : JsonVal :=
  match p.items with
  | none => .jlist []
  | some v => if pyTruthy v then v else .jlist []

/-- The items type check: `isinstance(items, list) and
all(isinstance(i, int) for i in items)`. -/
def itemsTypeOk : JsonVal → Bool
  | .jlist elems => elems.all isPyInt
  | _ => false

/-- The requested product ids: the integer values of the (int-like)
elements of the normalized items list. -/
def requestedIds (p : OrderPayload) : List Int :=
  match normItems p with
  | .jlist elems => elems.filterMap pyToInt
  | _ => []

/-- `db.query(Product).filter(Product.id.in_(items)).all()`: the stored
products whose id occurs among the requested ids, in table order. Note
there is no `is_active` filter. -/
def resolveProducts (db : DB) (ids : List Int) : List Product :=
  db.products.filter (fun p => ids.contains p.id)

/-- `total = sum(p.price for p in products)` over the resolved
products. -/
def orderTotal (db : DB) (ids : List Int) : ℚ :=
  ((resolveProducts db ids).map (·.price)).sum

/-- `",".join(str(i) for i in items)`: the serialized items column on the
HTTP path. -/
def itemsJoined (p : OrderPayload) : String :=
  match normItems p with
  | .jlist elems => String.intercalate "," (elems.map pyStr)
  | _ => ""

/-- Result of `POST /api/orders`: 422 `HTTPException` (invalid items /
missing customer data), 404 (no product resolves), or the success
response `{"status": "ok", "id": order.id}`. -/
inductive CreateOrderResult where
  | validationError (detail : String)
  | notFound (detail : String)
  | created (id : Int)
deriving DecidableEq

/-- `if not full_name or not address or not phone`: some customer field
is empty after trimming. -/
def customerMissing (p : OrderPayload) : Bool :=
  pyStrip (p.full_name.getD "") == "" || pyStrip (p.address.getD "") == "" ||
    pyStrip (p.phone.getD "") == ""

/-- The `Order(...)` row `create_order` persists: fresh id, the caller's
`user_id`, comma-joined items, the frozen total, status "pending", and
the trimmed customer fields. -/
def orderRow (db : DB) (p : OrderPayload) (now : Nat) : Order :=
  { id := nextOrderId db
    user_id := p.user_id
    items := itemsJoined p
    total := orderTotal db (requestedIds p)
    status := "pending"
    created_at := now
    full_name := some (pyStrip (p.full_name.getD ""))
    address := some (pyStrip (p.address.getD ""))
    phone := some (pyStrip (p.phone.getD "")) }

/-- `create_order`: check the items type, trim and check the customer
fields, resolve the products, then persist one order row with status
"pending" and the total frozen in. -/
def create_order (db : DB) (p : OrderPayload) (now : Nat) : DB × CreateOrderResult :=
  if !itemsTypeOk (normItems p) then
    (db, .validationError "Invalid items")
  else if customerMissing p then
    (db, .validationError "Missing customer data")
  else if (resolveProducts db (requestedIds p)).isEmpty then
    (db, .notFound "Products not found")
  else
    ({db with orders := db.orders ++ [orderRow db p now]}, .created (nextOrderId db))

/-! ## Admin order operations (`backend/main.py`) -/

/-- Result of the admin order endpoints: 404 `HTTPException`, or the
success bodies of `update_status` / `delete_order`. -/
inductive AdminOpResult where
  | notFound
  | updated (order_id : Int) (new_status : String)
  | deleted (order_id : Int)
deriving DecidableEq

/-- Set the status of the first order row with the given id (the row the
query's `.first()` returns), leaving every other row untouched. -/
def setStatusFirst : List Order → Int → String → List Order
  | [], _, _ => []
  | o :: rest, oid, st =>
      if o.id == oid then {o with status := st} :: rest
      else o :: setStatusFirst rest oid st

/-- Remove the first order row with the given id. -/
def deleteFirst : List Order → Int → List Order
  | [], _ => []
  | o :: rest, oid => if o.id == oid then rest else o :: deleteFirst rest oid

/-- `update_status`: 404 when no order has the id; otherwise overwrite
the status of that row unconditionally. -/
def update_status (db : DB) (order_id : Int) (status : String) : DB × AdminOpResult :=
  match db.orders.find? (fun o => o.id == order_id) with
  | none => (db, .notFound)
  | some _ => ({db with orders := setStatusFirst db.orders order_id status},
               .updated order_id status)

/-- `delete_order`: 404 when no order has the id; otherwise remove that
row permanently. -/
def delete_order (db : DB) (order_id : Int) : DB × AdminOpResult :=
  match db.orders.find? (fun o => o.id == order_id) with
  | none => (db, .notFound)
  | some _ => ({db with orders := deleteFirst db.orders order_id}, .deleted order_id)

/-! ## Python `json.loads` model

A recursive-descent parser for the JSON subset the bot payloads live in:
integers, arrays, booleans, null, and escape-free strings. JSON floats,
objects and string escapes are outside the modelled payload universe
(the parser answers `none`, the "raise" outcome, on them). Like
`json.loads`, a document with trailing non-whitespace ("extra data") is
rejected. -/

/-- JSON whitespace (the four characters `json.loads` skips). -/
def skipWs : List Char → List Char
  | [] => []
  | c :: rest =>
      if c == ' ' || c == '\t' || c == '\n' || c == '\r' then skipWs rest else c :: rest

/-- Parse a JSON integer literal: optional minus, digits, no leading
zero, not followed by a fraction or exponent (floats are unmodelled). -/
def parseJsonInt (cs : List Char) : Option (JsonVal × List Char) :=
  let signed := match cs with
    | '-' :: rest => (true, rest)
    | _ => (false, cs)
  let ds := signed.2.takeWhile Char.isDigit
  let rest := signed.2.dropWhile Char.isDigit
  if ds.isEmpty then none
  else if ds.length > 1 && ds.head? == some '0' then none
  else
    match rest with
    | '.' :: _ => none
    | 'e' :: _ => none
    | 'E' :: _ => none
    | _ => some (.jint (if signed.1 then -(natOfDigits ds : Int) else (natOfDigits ds : Int)), rest)

/-- Parse the body of a JSON string after the opening quote; escape
sequences are outside the modelled universe. -/
def parseJsonStringBody : List Char → List Char → Option (String × List Char)
  | [], _ => none
  | '"' :: rest, acc => some (String.mk acc.reverse, rest)
  | '\\' :: _, _ => none
  | c :: rest, acc => parseJsonStringBody rest (c :: acc)

mutual

/-- Parse one JSON value, fuel-bounded (the fuel only bounds recursion
depth; `jsonLoads` supplies enough for any input). -/
def parseJsonValue : Nat → List Char → Option (JsonVal × List Char)
  | 0, _ => none
  | fuel + 1, cs =>
    match skipWs cs with
    | '[' :: rest =>
        match skipWs rest with
        | ']' :: rest2 => some (.jlist [], rest2)
        | rest2 =>
            match parseJsonValue fuel rest2 with
            | none => none
            | some (v, rest3) => parseJsonArrayTail fuel rest3 [v]
    | 't' :: 'r' :: 'u' :: 'e' :: rest => some (.jbool true, rest)
    | 'f' :: 'a' :: 'l' :: 's' :: 'e' :: rest => some (.jbool false, rest)
    | 'n' :: 'u' :: 'l' :: 'l' :: rest => some (.jnull, rest)
    | '"' :: rest =>
        match parseJsonStringBody rest [] with
        | none => none
        | some (s, rest2) => some (.jstr s, rest2)
    | cs2 => parseJsonInt cs2

/-- Parse the remaining elements of a JSON array after its first value,
accumulating in order. -/
def parseJsonArrayTail : Nat → List Char → List JsonVal → Option (JsonVal × List Char)
  | 0, _, _ => none
  | fuel + 1, cs, acc =>
    match skipWs cs with
    | ',' :: rest =>
        match parseJsonValue fuel rest with
        | none => none
        | some (v, rest2) => parseJsonArrayTail fuel rest2 (acc ++ [v])
    | ']' :: rest => some (.jlist acc, rest)
    | _ => none

end

/-- `json.loads` on the modelled JSON subset: parse one value, allow
trailing whitespace only (`none` is the raised `JSONDecodeError`). -/
def jsonLoads (s : String) : Option JsonVal :=
  match parseJsonValue (2 * s.length + 2) s.data with
  | none => none
  | some (v, rest) => if (skipWs rest).isEmpty then some v else none

/-! ## Bot front door (`bot/bot.py`, `handle_web_app_data`) -/

/-- Split a character list on a separator character; like Python
`str.split(sep)`, the empty input gives one empty piece. -/
def splitOnChar (c : Char) : List Char → List (List Char)
  | [] => [[]]
  | x :: rest =>
    match splitOnChar c rest with
    | [] => if x == c then [[], []] else [[x]]
    | y :: ys => if x == c then [] :: y :: ys else (x :: y) :: ys

/-- Python `raw.split(",")`. -/
def pySplitComma (s : String) : List String :=
  (splitOnChar ',' s.data).map String.mk

/-- The fallback parse used when `json.loads` raises: on a comma, keep
the digit-only pieces of the comma-split; otherwise a bare digit string
gives a singleton and anything else the empty list. -/
def botFallbackIds (raw : String) : List Int :=
  if raw.data.contains ',' then
    ((pySplitComma raw).filter (fun x => pyIsDigit (pyStrip x))).filterMap pyIntOfString
  else if pyIsDigit (pyStrip raw) then (pyIntOfString raw).toList
  else []

/-- The `data` value the comprehension `[int(x) for x in data]` iterates:
the `json.loads` result, or the fallback list on a decode error. -/
def botParsedData (raw : String) : JsonVal :=
  match jsonLoads raw with
  | some v => v
  | none => .jlist ((botFallbackIds raw).map (fun n => .jint n))

/-- Python `[int(x) for x in data]`: iterating a list converts each
element with `int(...)`; iterating a string converts each character;
ints, bools and null are not iterable (TypeError → `none`); any failing
`int(...)` also raises (→ `none`). -/
def pyIterInts : JsonVal → Option (List Int)
  | .jlist xs => xs.mapM pyIntOf
  | .jstr s => s.data.mapM (fun c => if c.isDigit then some ((c.toNat - 48 : Nat) : Int) else none)
  | _ => none

/-- The product ids `handle_web_app_data` extracts from the raw payload;
`none` is any exception reaching the blanket `except`. -/
def botProductIds (raw : String) : Option (List Int) :=
  pyIterInts (botParsedData raw)

/-- `json.dumps(product_ids)`: the serialized items column on the bot
path. -/
def jsonDumpsInts (ids : List Int) : String :=
  "[" ++ String.intercalate ", " (ids.map toString) ++ "]"

/-- The bot's reply to a web-app payload: the "could not recognize"
message, the "products not found" message, the order confirmation, or
the generic failure message from the blanket `except`. -/
inductive BotReply where
  | unrecognized
  | productsNotFound
  | ordered (orderId : Int) (names : List String) (total : ℚ)
  | genericError
deriving DecidableEq

/-- The `Order(...)` row the bot persists: fresh id, the chat user's
platform id, `json.dumps`-serialized items, the frozen total, status
"pending", and no customer fields. -/
def botOrderRow (db : DB) (ids : List Int) (fromUserId : Int) (now : Nat) : Order :=
  { id := nextOrderId db
    user_id := some fromUserId
    items := jsonDumpsInts ids
    total := orderTotal db ids
    status := "pending"
    created_at := now
    full_name := none
    address := none
    phone := none }

/-- `handle_web_app_data`: parse the payload into product ids, resolve
them against the catalog, persist an order row (status "pending", the
chat user's id, no customer fields) and confirm; any exception yields the
generic failure reply and no order. -/
def handle_web_app_data (db : DB) (raw : String) (fromUserId : Int) (now : Nat) :
    DB × BotReply :=
  match botProductIds raw with
  | none => (db, .genericError)
  | some product_ids =>
    if product_ids.isEmpty then (db, .unrecognized)
    else if (resolveProducts db product_ids).isEmpty then (db, .productsNotFound)
    else
      ({db with orders := db.orders ++ [botOrderRow db product_ids fromUserId now]},
       .ordered (nextOrderId db) ((resolveProducts db product_ids).map (·.name))
         (orderTotal db product_ids))

/-! ## Shape lemmas for the order-creation paths -/

lemma create_order_invalid_items (db : DB) (p : OrderPayload) (now : Nat)
    (h : itemsTypeOk (normItems p) = false) :
    create_order db p now = (db, .validationError "Invalid items") := by
  simp [create_order, h]

lemma create_order_missing_customer (db : DB) (p : OrderPayload) (now : Nat)
    (h1 : itemsTypeOk (normItems p) = true) (h2 : customerMissing p = true) :
    create_order db p now = (db, .validationError "Missing customer data") := by
  simp [create_order, h1, h2]

lemma create_order_no_products (db : DB) (p : OrderPayload) (now : Nat)
    (h1 : itemsTypeOk (normItems p) = true) (h2 : customerMissing p = false)
    (h3 : (resolveProducts db (requestedIds p)).isEmpty = true) :
    create_order db p now = (db, .notFound "Products not found") := by
  simp [create_order, h1, h2, h3]

lemma create_order_success (db : DB) (p : OrderPayload) (now : Nat)
    (h1 : itemsTypeOk (normItems p) = true) (h2 : customerMissing p = false)
    (h3 : (resolveProducts db (requestedIds p)).isEmpty = false) :
    create_order db p now =
      ({db with orders := db.orders ++ [orderRow db p now]}, .created (nextOrderId db)) := by
  simp [create_order, h1, h2, h3]

lemma bot_generic_error (db : DB) (raw : String) (uid : Int) (now : Nat)
    (h : botProductIds raw = none) :
    handle_web_app_data db raw uid now = (db, .genericError) := by
  simp [handle_web_app_data, h]

lemma bot_success (db : DB) (raw : String) (uid : Int) (now : Nat) (ids : List Int)
    (h : botProductIds raw = some ids) (h1 : ids.isEmpty = false)
    (h2 : (resolveProducts db ids).isEmpty = false) :
    handle_web_app_data db raw uid now =
      ({db with orders := db.orders ++ [botOrderRow db ids uid now]},
       .ordered (nextOrderId db) ((resolveProducts db ids).map (·.name)) (orderTotal db ids)) := by
  simp [handle_web_app_data, h, h1, h2]

/-- Duplicate ids in a request do not change the resolved product set:
the SQL `IN` filter only tests membership. -/
lemma resolveProducts_dedup (db : DB) (ids : List Int) :
    resolveProducts db ids.dedup = resolveProducts db ids := by
  unfold resolveProducts
  apply List.filter_congr
  intro q _
  simp [List.contains, List.mem_dedup]

/-- Hence duplicate ids do not change the computed total. -/
lemma orderTotal_dedup (db : DB) (ids : List Int) :
    orderTotal db ids.dedup = orderTotal db ids := by
  unfold orderTotal
  rw [resolveProducts_dedup]

/-! ## Claims -/

/-- C1: For every valid `create_order` request (HTTP or bot path), the
total stored in the created order equals the sum of the prices of the
distinct products resolved from the requested ids (`orderTotal`), and
duplicate ids in the request do not increase the total: replacing the
requested ids by their deduplication leaves the total unchanged. -/
theorem C1_order_total (db : DB) (p : OrderPayload) (now : Nat) (oid : Int)
    (raw : String) (uid : Int) (now2 : Nat) (oid2 : Int) (names : List String) (tot : ℚ) :
    ((create_order db p now).2 = .created oid →
      ∃ row, (create_order db p now).1.orders = db.orders ++ [row] ∧
        row.total = orderTotal db (requestedIds p) ∧
        orderTotal db ((requestedIds p).dedup) = orderTotal db (requestedIds p)) ∧
    ((handle_web_app_data db raw uid now2).2 = .ordered oid2 names tot →
      ∃ ids row, botProductIds raw = some ids ∧
        (handle_web_app_data db raw uid now2).1.orders = db.orders ++ [row] ∧
        row.total = orderTotal db ids ∧ tot = orderTotal db ids ∧
        orderTotal db ids.dedup = orderTotal db ids) := by
  constructor
  · intro h
    rcases h1 : itemsTypeOk (normItems p) with _ | _
    · rw [create_order_invalid_items db p now h1] at h
      simp at h
    · rcases h2 : customerMissing p with _ | _
      · rcases h3 : (resolveProducts db (requestedIds p)).isEmpty with _ | _
        · refine ⟨orderRow db p now, ?_, rfl, orderTotal_dedup db _⟩
          rw [create_order_success db p now h1 h2 h3]
        · rw [create_order_no_products db p now h1 h2 h3] at h
          simp at h
      · rw [create_order_missing_customer db p now h1 h2] at h
        simp at h
  · intro h
    rcases hp : botProductIds raw with _ | ids
    · rw [bot_generic_error db raw uid now2 hp] at h
      simp at h
    · rcases h1 : ids.isEmpty with _ | _
      · rcases h2 : (resolveProducts db ids).isEmpty with _ | _
        · have hs := bot_success db raw uid now2 ids hp h1 h2
          rw [hs] at h
          have htot : tot = orderTotal db ids := by
            injection h with ha hb hc
            exact hc.symm
          refine ⟨ids, botOrderRow db ids uid now2, rfl, ?_, rfl, htot, orderTotal_dedup db ids⟩
          rw [hs]
        · rw [show handle_web_app_data db raw uid now2 = (db, .productsNotFound) by
              simp [handle_web_app_data, hp, h1, h2]] at h
          simp at h
      · rw [show handle_web_app_data db raw uid now2 = (db, .unrecognized) by
            simp [handle_web_app_data, hp, h1]] at h
        simp at h

/-- A one-product catalog: the "Lollipop" example from the spec,
priced 25. -/
def dbLollipop : DB :=
  ⟨[⟨5, "Lollipop", "", 25, "/static/uploads/l.png", true⟩], [], [], []⟩

/-- A checkout payload requesting product 5 twice, with complete customer
fields. -/
def payloadDup : OrderPayload :=
  ⟨some (.jlist [.jint 5, .jint 5]), some "John Doe", some "Main St 1", some "555-01", some 7⟩

/-- C1 witness: the duplicate-id request on the Lollipop catalog, on both
paths. -/
theorem C1_order_total_witness :
    (∃ row, (create_order dbLollipop payloadDup 0).1.orders = dbLollipop.orders ++ [row] ∧
      row.total = orderTotal dbLollipop (requestedIds payloadDup) ∧
      orderTotal dbLollipop ((requestedIds payloadDup).dedup) =
        orderTotal dbLollipop (requestedIds payloadDup)) ∧
    (∃ ids row, botProductIds "[5, 5]" = some ids ∧
      (handle_web_app_data dbLollipop "[5, 5]" 99 0).1.orders = dbLollipop.orders ++ [row] ∧
      row.total = orderTotal dbLollipop ids ∧
      orderTotal dbLollipop [5, 5] = orderTotal dbLollipop ids ∧
      orderTotal dbLollipop ids.dedup = orderTotal dbLollipop ids) :=
  ⟨(C1_order_total dbLollipop payloadDup 0 1 "[5, 5]" 99 0 1 ["Lollipop"]
      (orderTotal dbLollipop [5, 5])).1 rfl,
   (C1_order_total dbLollipop payloadDup 0 1 "[5, 5]" 99 0 1 ["Lollipop"]
      (orderTotal dbLollipop [5, 5])).2 rfl⟩

/-- Resolving an empty id list yields no products. -/
lemma resolveProducts_nil (db : DB) : resolveProducts db [] = [] := by
  simp [resolveProducts]

/-- C2 counterexample: with `items = []` and complete customer fields,
`create_order` does not fail with a 422 validation error as claimed: the
empty list passes the items type check (`payload.get("items") or []`
followed by a vacuous `all`), and the request reaches product resolution
and fails with the 404 "Products not found" instead. -/
theorem C2_empty_items_counterexample :
    create_order ⟨[], [], [], []⟩
        ⟨some (.jlist []), some "John Doe", some "Main St 1", some "555-01", none⟩ 0 =
      (⟨[], [], [], []⟩, .notFound "Products not found") := rfl

/-- C2 (amended): `create_order` fails with 422 "Invalid items" when the
(truthiness-normalized) items value is a non-list or contains a
non-integer; when `items` is the empty list and the customer fields are
valid, the items check passes and the request fails with the 404
"Products not found" (no id resolves) rather than a 422; it fails with
422 "Missing customer data" when any of full_name, address or phone is
empty after trimming; and it fails with the 404 "Products not found"
when none of the requested ids resolves to a stored product. -/
theorem C2_validation_amended (db : DB) (p1 p2 p3 p4 : OrderPayload) (now : Nat) :
    (itemsTypeOk (normItems p1) = false →
      create_order db p1 now = (db, .validationError "Invalid items")) ∧
    (normItems p2 = .jlist [] → customerMissing p2 = false →
      create_order db p2 now = (db, .notFound "Products not found")) ∧
    (itemsTypeOk (normItems p3) = true → customerMissing p3 = true →
      create_order db p3 now = (db, .validationError "Missing customer data")) ∧
    (itemsTypeOk (normItems p4) = true → customerMissing p4 = false →
      resolveProducts db (requestedIds p4) = [] →
      create_order db p4 now = (db, .notFound "Products not found")) := by
  refine ⟨fun h1 => create_order_invalid_items db p1 now h1, fun hn hc => ?_,
    fun h1 h2 => create_order_missing_customer db p3 now h1 h2, fun h1 hc hr => ?_⟩
  · have h1 : itemsTypeOk (normItems p2) = true := by rw [hn]; rfl
    have hids : requestedIds p2 = [] := by unfold requestedIds; rw [hn]; rfl
    refine create_order_no_products db p2 now h1 hc ?_
    rw [hids, resolveProducts_nil]
    rfl
  · exact create_order_no_products db p4 now h1 hc (by rw [hr]; rfl)

/-- C2 witness: instantiations of the four amended branches on the
Lollipop catalog. -/
theorem C2_validation_amended_witness :
    (create_order dbLollipop ⟨some (.jstr "abc"), some "J", some "A", some "P", none⟩ 0 =
      (dbLollipop, .validationError "Invalid items")) ∧
    (create_order dbLollipop ⟨some (.jlist []), some "J", some "A", some "P", none⟩ 0 =
      (dbLollipop, .notFound "Products not found")) ∧
    (create_order dbLollipop ⟨some (.jlist [.jint 5]), some "J", some "  ", some "P", none⟩ 0 =
      (dbLollipop, .validationError "Missing customer data")) ∧
    (create_order dbLollipop ⟨some (.jlist [.jint 42]), some "J", some "A", some "P", none⟩ 0 =
      (dbLollipop, .notFound "Products not found")) :=
  have h := C2_validation_amended dbLollipop
    ⟨some (.jstr "abc"), some "J", some "A", some "P", none⟩
    ⟨some (.jlist []), some "J", some "A", some "P", none⟩
    ⟨some (.jlist [.jint 5]), some "J", some "  ", some "P", none⟩
    ⟨some (.jlist [.jint 42]), some "J", some "A", some "P", none⟩ 0
  ⟨h.1 rfl, h.2.1 rfl rfl, h.2.2.1 rfl rfl, h.2.2.2 rfl rfl rfl⟩

/-- Every failing path of `login` yields the same result and leaves the
database unchanged. -/
lemma login_error_shape (verify : String → String → Bool) (db : DB)
    (u p : Option String) (tok : String) (now : Nat)
    (h : (login verify db u p tok now).2.isError = true) :
    login verify db u p tok now = (db, .error 401 "Invalid credentials") := by
  rcases h1 : (pyStrip (u.getD "") == "" || p.getD "" == "") with _ | _
  · rcases h2 : db.users.find? (fun x => x.username == some (pyStrip (u.getD ""))) with _ | user
    · simp [login, h1, h2]
    · rcases h3 : (user.password_hash.getD "" == "") with _ | _
      · rcases h4 : verify (p.getD "") (user.password_hash.getD "") with _ | _
        · simp [login, h1, h2, h3, h4]
        · simp [login, h1, h2, h3, h4, LoginResult.isError] at h
      · simp [login, h1, h2, h3]
  · simp [login, h1]

/-- C3 counterexample: on a system with zero registered users, a login
attempt with an identifier and a password does not create a bootstrap
admin — it fails with 401 "Invalid credentials" and leaves the (empty)
users table empty, even if the hash check would accept anything. -/
theorem C3_zero_users_counterexample :
    login (fun _ _ => true) ⟨[], [], [], []⟩ (some "tg-777") (some "hunter2") "tok" 0 =
      (⟨[], [], [], []⟩, .error 401 "Invalid credentials") := rfl

/-- C3 (amended): the login endpoint never creates a user. With zero
registered users every login attempt fails with 401 "Invalid
credentials", and on any database a login leaves the users table
unchanged — so no bootstrap admin is ever created via login (the initial
admin is instead created at startup, outside this endpoint). -/
theorem C3_no_bootstrap_via_login (verify : String → String → Bool) (db : DB)
    (u p : Option String) (tok : String) (now : Nat) :
    (db.users = [] → login verify db u p tok now = (db, .error 401 "Invalid credentials")) ∧
    (login verify db u p tok now).1.users = db.users := by
  constructor
  · intro hu
    unfold login
    rw [hu]
    simp
  · rcases h1 : (pyStrip (u.getD "") == "" || p.getD "" == "") with _ | _
    · rcases h2 : db.users.find? (fun x => x.username == some (pyStrip (u.getD ""))) with _ | user
      · simp [login, h1, h2]
      · rcases h3 : (user.password_hash.getD "" == "") with _ | _
        · rcases h4 : verify (p.getD "") (user.password_hash.getD "") with _ | _
          · simp [login, h1, h2, h3, h4]
          · simp [login, h1, h2, h3, h4]
        · simp [login, h1, h2, h3]
    · simp [login, h1]

/-- C3 witness: the amended claim at a concrete empty-user database. -/
theorem C3_no_bootstrap_via_login_witness :
    (login (fun _ h => h == "x") ⟨[], [], [], []⟩ (some "admin") (some "pw") "t" 5 =
      (⟨[], [], [], []⟩, .error 401 "Invalid credentials")) ∧
    (login (fun _ h => h == "x") ⟨[], [], [], []⟩ (some "admin") (some "pw") "t" 5).1.users =
      (⟨[], [], [], []⟩ : DB).users :=
  have h := C3_no_bootstrap_via_login (fun _ h => h == "x") ⟨[], [], [], []⟩
    (some "admin") (some "pw") "t" 5
  ⟨h.1 rfl, h.2⟩

/-- C8: every failing login attempt — missing username or password,
unknown username, user with no stored password hash, or hash mismatch —
produces the identical response `401 "Invalid credentials"` (and no
cookie, since only the success constructor carries one); hence any two
failing login inputs receive equal responses. -/
theorem C8_uniform_login_failure (verify : String → String → Bool) (db : DB)
    (u1 p1 : Option String) (t1 : String) (n1 : Nat)
    (u2 p2 : Option String) (t2 : String) (n2 : Nat) :
    ((login verify db u1 p1 t1 n1).2.isError = true →
      login verify db u1 p1 t1 n1 = (db, .error 401 "Invalid credentials")) ∧
    ((login verify db u1 p1 t1 n1).2.isError = true →
      (login verify db u2 p2 t2 n2).2.isError = true →
      (login verify db u1 p1 t1 n1).2 = (login verify db u2 p2 t2 n2).2) := by
  refine ⟨login_error_shape verify db u1 p1 t1 n1, fun h1 h2 => ?_⟩
  rw [login_error_shape verify db u1 p1 t1 n1 h1, login_error_shape verify db u2 p2 t2 n2 h2]

/-- C8 witness: a wrong-password attempt and an unknown-username attempt
against a one-user database receive the identical 401 response. -/
theorem C8_uniform_login_failure_witness :
    (login (fun pw h => pw == h) ⟨[], [⟨1, none, some "alice", some "pw", false, 0⟩], [], []⟩
        (some "alice") (some "wrong") "t1" 0 =
      (⟨[], [⟨1, none, some "alice", some "pw", false, 0⟩], [], []⟩,
       .error 401 "Invalid credentials")) ∧
    ((login (fun pw h => pw == h) ⟨[], [⟨1, none, some "alice", some "pw", false, 0⟩], [], []⟩
        (some "alice") (some "wrong") "t1" 0).2 =
      (login (fun pw h => pw == h) ⟨[], [⟨1, none, some "alice", some "pw", false, 0⟩], [], []⟩
        (some "bob") (some "pw") "t2" 9).2) :=
  have h := C8_uniform_login_failure (fun pw h => pw == h)
    ⟨[], [⟨1, none, some "alice", some "pw", false, 0⟩], [], []⟩
    (some "alice") (some "wrong") "t1" 0 (some "bob") (some "pw") "t2" 9
  ⟨h.1 rfl, h.2 rfl rfl⟩

/-- C5: for every request whose path is under the admin prefix, if the
cookie resolves to no user (absent cookie, no valid session, or dangling
user) or the resolved user lacks the admin flag, the middleware answers
the fixed 403 "Access denied" response and the underlying handler is
never invoked (`some` short-circuits `call_next`). -/
theorem C5_admin_gate (db : DB) (path : String) (cookie : Option String) (now : Nat)
    (hpath : pyStartsWith path "/api/admin" = true)
    (hacc : ∀ u, user_from_request db cookie now = some u → u.is_admin = false) :
    admin_check db path cookie now = some (403, "Access denied") := by
  unfold admin_check
  rw [hpath]
  rcases hu : user_from_request db cookie now with _ | u
  · simp
  · simp [hacc u hu]

/-- A one-user database whose user "bob" is not an admin but holds a
currently valid session. -/
def dbNonAdmin : DB :=
  ⟨[], [⟨2, none, some "bob", some "h", false, 0⟩], [⟨2, "tok2", 100⟩], []⟩

/-- C5 witness: a valid session of a non-admin user on an admin path is
answered with the fixed 403. -/
theorem C5_admin_gate_witness :
    admin_check dbNonAdmin "/api/admin/orders" (some "tok2") 5 = some (403, "Access denied") :=
  C5_admin_gate dbNonAdmin "/api/admin/orders" (some "tok2") 5 (by decide)
    (fun u h => (Option.some.inj h) ▸ rfl)

/-- C6: once every session carrying a token has its stored expiry at or
before `now`, resolving that token returns no user at `now` and at every
later time: the lookup requires `expires_at` strictly in the future and
resolution never mutates the session table. -/
theorem C6_expired_token_never_resolves (db : DB) (t : String) (now now2 : Nat)
    (hexp : ∀ s ∈ db.sessions, s.token = t → s.expires_at ≤ now)
    (hle : now ≤ now2) :
    user_from_request db (some t) now2 = none := by
  have hf : db.sessions.find? (fun s => s.token == t && decide (now2 < s.expires_at)) = none := by
    rw [List.find?_eq_none]
    intro s hs
    simp only [Bool.and_eq_true, beq_iff_eq, decide_eq_true_eq, not_and]
    intro hst hlt
    exact absurd hlt (Nat.not_lt.mpr (Nat.le_trans (hexp s hs hst) hle))
  simp [user_from_request, hf]

/-- A database holding one session, token "tok", which expired at time
10. -/
def dbExpired : DB := ⟨[], [], [⟨1, "tok", 10⟩], []⟩

/-- C6 witness: the expired token resolves to no user at the later time
20. -/
theorem C6_expired_token_never_resolves_witness :
    user_from_request dbExpired (some "tok") 20 = none :=
  C6_expired_token_never_resolves dbExpired "tok" 15 20 (by decide) (by decide)

/-- C7: `update_status` and `delete_order` on an order id that matches no
row both answer the 404 "Order not found" and return the database exactly
as it was — no order is created, modified or removed. -/
theorem C7_missing_order_is_noop (db : DB) (oid : Int) (st : String)
    (h : db.orders.find? (fun o => o.id == oid) = none) :
    update_status db oid st = (db, .notFound) ∧ delete_order db oid = (db, .notFound) := by
  constructor
  · simp [update_status, h]
  · simp [delete_order, h]

/-- A database holding exactly one order, with id 1. -/
def dbOneOrder : DB :=
  ⟨[], [], [], [⟨1, some 7, "5", 25, "pending", 0, some "J", some "A", some "P"⟩]⟩

/-- C7 witness: both operations at the absent id 2 answer 404 and leave
the database untouched. -/
theorem C7_missing_order_is_noop_witness :
    update_status dbOneOrder 2 "shipped" = (dbOneOrder, .notFound) ∧
    delete_order dbOneOrder 2 = (dbOneOrder, .notFound) :=
  C7_missing_order_is_noop dbOneOrder 2 "shipped" rfl

/-- C9: `create_order` resolves the requested ids against all stored
products with no `is_active` filter: even when every stored product is
inactive (soft-removed), a valid request whose ids resolve succeeds, and
the inactive products' prices count toward the stored total. -/
theorem C9_inactive_products_orderable (db : DB) (p : OrderPayload) (now : Nat)
    (h1 : itemsTypeOk (normItems p) = true) (h2 : customerMissing p = false)
    (h3 : (resolveProducts db (requestedIds p)).isEmpty = false)
    (_hinactive : ∀ q ∈ db.products, q.is_active = false) :
    (create_order db p now).2 = .created (nextOrderId db) ∧
    ∃ row, (create_order db p now).1.orders = db.orders ++ [row] ∧
      row.total = orderTotal db (requestedIds p) := by
  rw [create_order_success db p now h1 h2 h3]
  exact ⟨rfl, orderRow db p now, rfl, rfl⟩

/-- A catalog holding only one inactive (soft-removed) product, id 9
priced 10. -/
def dbInactive : DB := ⟨[⟨9, "Ghost", "", 10, "", false⟩], [], [], []⟩

/-- C9 witness: ordering the inactive product 9 succeeds and bills its
price. -/
theorem C9_inactive_products_orderable_witness :
    (create_order dbInactive ⟨some (.jlist [.jint 9]), some "J", some "A", some "P", none⟩ 0).2 =
      .created (nextOrderId dbInactive) ∧
    ∃ row, (create_order dbInactive
        ⟨some (.jlist [.jint 9]), some "J", some "A", some "P", none⟩ 0).1.orders =
      dbInactive.orders ++ [row] ∧
      row.total = orderTotal dbInactive
        (requestedIds ⟨some (.jlist [.jint 9]), some "J", some "A", some "P", none⟩) :=
  C9_inactive_products_orderable dbInactive
    ⟨some (.jlist [.jint 9]), some "J", some "A", some "P", none⟩ 0
    rfl rfl rfl (by decide)

/-- Setting the status of the first row holding a present id decomposes
the order list around that row, rewriting only its status field. -/
lemma setStatusFirst_decomp (l : List Order) (oid : Int) (st : String)
    (h : ∃ o ∈ l, o.id = oid) :
    ∃ pre o post, l = pre ++ o :: post ∧ o.id = oid ∧ (∀ q ∈ pre, q.id ≠ oid) ∧
      setStatusFirst l oid st = pre ++ {o with status := st} :: post := by
  induction l with
  | nil => simp at h
  | cons a rest ih =>
    by_cases ha : a.id = oid
    · exact ⟨[], a, rest, by simp, ha, by simp, by simp [setStatusFirst, ha]⟩
    · obtain ⟨o, ho, hid⟩ := h
      have hor : o ∈ rest := by
        rcases List.mem_cons.mp ho with rfl | hr
        · exact absurd hid ha
        · exact hr
      obtain ⟨pre, o', post, hl, hid', hpre, hset⟩ := ih ⟨o, hor, hid⟩
      refine ⟨a :: pre, o', post, by simp [hl], hid', ?_, ?_⟩
      · intro q hq
        rcases List.mem_cons.mp hq with rfl | hr
        · exact ha
        · exact hpre q hr
      · simp [setStatusFirst, ha, hset]

/-- C10: on an existing order id, `update_status` rewrites only the
status field of the first matching row — its id, user_id, items, total,
created_at and customer fields survive verbatim — while every other
order row and every other table are returned unchanged, and the endpoint
reports the update. -/
theorem C10_update_status_frame (db : DB) (oid : Int) (st : String)
    (h : ∃ o ∈ db.orders, o.id = oid) :
    ∃ pre o post, db.orders = pre ++ o :: post ∧ o.id = oid ∧
      (∀ q ∈ pre, q.id ≠ oid) ∧
      (update_status db oid st).1.orders =
        pre ++ { id := o.id, user_id := o.user_id, items := o.items, total := o.total,
                 status := st, created_at := o.created_at, full_name := o.full_name,
                 address := o.address, phone := o.phone } :: post ∧
      (update_status db oid st).1.products = db.products ∧
      (update_status db oid st).1.users = db.users ∧
      (update_status db oid st).1.sessions = db.sessions ∧
      (update_status db oid st).2 = .updated oid st := by
  obtain ⟨o0, ho0, hid0⟩ := h
  have hfind : db.orders.find? (fun o => o.id == oid) ≠ none := by
    intro hnone
    exact absurd (by simpa using hid0) ((List.find?_eq_none.mp hnone) o0 ho0)
  obtain ⟨pre, o, post, hl, hid, hpre, hset⟩ :=
    setStatusFirst_decomp db.orders oid st ⟨o0, ho0, hid0⟩
  rcases hf : db.orders.find? (fun o => o.id == oid) with _ | found
  · exact absurd hf hfind
  · exact ⟨pre, o, post, hl, hid, hpre, by simp [update_status, hf, hset], by
      simp [update_status, hf], by simp [update_status, hf], by simp [update_status, hf], by
      simp [update_status, hf]⟩

/-- A database holding two orders, ids 1 and 2. -/
def dbTwoOrders : DB :=
  ⟨[], [], [],
   [⟨1, some 7, "5", 25, "pending", 0, some "J", some "A", some "P"⟩,
    ⟨2, none, "[5, 5]", 50, "pending", 3, none, none, none⟩]⟩

/-- C10 witness: updating order 2 to "shipped" preserves everything but
its status. -/
theorem C10_update_status_frame_witness :
    ∃ pre o post, dbTwoOrders.orders = pre ++ o :: post ∧ o.id = 2 ∧
      (∀ q ∈ pre, q.id ≠ 2) ∧
      (update_status dbTwoOrders 2 "shipped").1.orders =
        pre ++ { id := o.id, user_id := o.user_id, items := o.items, total := o.total,
                 status := "shipped", created_at := o.created_at, full_name := o.full_name,
                 address := o.address, phone := o.phone } :: post ∧
      (update_status dbTwoOrders 2 "shipped").1.products = dbTwoOrders.products ∧
      (update_status dbTwoOrders 2 "shipped").1.users = dbTwoOrders.users ∧
      (update_status dbTwoOrders 2 "shipped").1.sessions = dbTwoOrders.sessions ∧
      (update_status dbTwoOrders 2 "shipped").2 = .updated 2 "shipped" :=
  C10_update_status_frame dbTwoOrders 2 "shipped"
    ⟨⟨2, none, "[5, 5]", 50, "pending", 3, none, none, none⟩, by simp [dbTwoOrders], rfl⟩

/-- C4 (bug evidence): on a catalog where product 5 exists, the bot
payload "5" — the bare-integer format the code's own comment says is
accepted — yields the generic failure reply and creates no order
(`json.loads("5")` succeeds with the non-iterable integer 5, so the
comprehension raises TypeError into the blanket except), while the JSON
array "[5]" and the comma format "5,5" do create orders. -/
theorem C4_bare_integer_payload_bug :
    handle_web_app_data dbLollipop "5" 99 0 = (dbLollipop, .genericError) ∧
    (handle_web_app_data dbLollipop "[5]" 99 0).2 =
      .ordered 1 ["Lollipop"] (orderTotal dbLollipop [5]) ∧
    (handle_web_app_data dbLollipop "5,5" 99 0).2 =
      .ordered 1 ["Lollipop"] (orderTotal dbLollipop [5, 5]) :=
  ⟨rfl, rfl, rfl⟩

end Shop
